import Mathlib

/-!
Shallow embedding of `golem/ethereum/node.py` (the node lifecycle supervisor
and faucet helpers) and proofs about it.

Effectful Python code is modelled by passing an explicit environment record
describing the behaviour of the external collaborators (the `geth` binary,
the subprocess layer, the HTTP faucet service, the node's JSON-RPC endpoint)
and returning the new supervisor state together with a trace of the commands
issued and an optional error.  Python exceptions become constructors of the
inductive `NodeError`; the constructors correspond one-to-one to raise sites
in the source (the Python types at those sites are `OSError` / `RuntimeError`;
the specification's taxonomy names them `EnvironmentError`,
`ConfigurationError` and `LifecycleError`).
-/

/-- Three-component version as extracted by the source's regex
`Version: (\d+\.\d+\.\d+)` and wrapped in `distutils` `StrictVersion`.
`StrictVersion` comparison on such versions is lexicographic comparison of
the numeric triples. -/
structure StrictVersion where
  major : Nat
  minor : Nat
  patch : Nat
deriving DecidableEq, Repr

/-- `StrictVersion` strict comparison (lexicographic on the triple), as
`distutils` performs it for versions without a prerelease tag. -/
def StrictVersion.ltB (a b : StrictVersion) : Bool :=
  if a.major = b.major then
    if a.minor = b.minor then decide (a.patch < b.patch)
    else decide (a.minor < b.minor)
  else decide (a.major < b.major)

/-- `StrictVersion` non-strict comparison (lexicographic on the triple). -/
def StrictVersion.leB (a b : StrictVersion) : Bool :=
  if a.major = b.major then
    if a.minor = b.minor then decide (a.patch ≤ b.patch)
    else decide (a.minor < b.minor)
  else decide (a.major < b.major)

/-- Rendering of a `StrictVersion`, as `str(ver)` produces it in the
source's error message. -/
def StrictVersion.toStr (v : StrictVersion) : String :=
  toString v.major ++ "." ++ toString v.minor ++ "." ++ toString v.patch

theorem StrictVersion.leB_eq_not_ltB (a b : StrictVersion) :
    StrictVersion.leB a b = !StrictVersion.ltB b a := by
  rcases a with ⟨a1, a2, a3⟩
  rcases b with ⟨b1, b2, b3⟩
  simp only [StrictVersion.leB, StrictVersion.ltB]
  split_ifs <;> (try (exfalso; omega)) <;>
    (rw [← decide_not]; exact decide_eq_decide.mpr (by omega))

/-- `NodeProcess.MIN_GETH_VERSION = '1.6.1'`. -/
def MIN_GETH_VERSION : StrictVersion := ⟨1, 6, 1⟩

/-- `NodeProcess.MAX_GETH_VERSION = '1.6.999'`. -/
def MAX_GETH_VERSION : StrictVersion := ⟨1, 6, 999⟩

/-- `NodeProcess.BOOT_NODES` from the source. -/
def BOOT_NODES : List String :=
  ["enode://a24ac7c5484ef4ed0c5eb2d36620ba4e4aa13b8c84684e1b4aab0cebea2ae45cb4d375b77eab56516d34bfbd3c1a833fc51296ff084b770b94fb9028c4d25ccf@52.169.42.101:30303?discport=30304"]

/-- Errors raised by the module, one constructor per raise site of the
source.  `gethNotFound`, `incompatibleVersion`, `initFailed` and
`wrongChain` are `OSError` in Python; `alreadyStarted` is `RuntimeError`;
`attributeError` models Python's `AttributeError` (see
`subprocessModuleHasNoSuchProcess`). -/
inductive NodeError where
  | gethNotFound
  | incompatibleVersion (ver : StrictVersion)
  | alreadyStarted
  | initFailed (code : Int)
  | wrongChain (identified : String)
  | attributeError (attr : String)
deriving DecidableEq, Repr

/-- The message attached to each error, mirroring the source's format
strings. -/
def NodeError.message : NodeError → String
  | .gethNotFound => "Ethereum client 'geth' not found"
  | .incompatibleVersion v =>
      "Incompatible Ethereum client 'geth' version: " ++ v.toStr
  | .alreadyStarted => "Ethereum node already started by us"
  | .initFailed c => "geth init failed with code " ++ toString c
  | .wrongChain c => "Wrong '" ++ c ++ "' Ethereum chain"
  | .attributeError a => "'module' object has no attribute '" ++ a ++ "'"

/-- A command issued to the `geth` binary via `subprocess.Popen`.
`versionQuery` and `chainInit` are synchronous short-lived invocations;
`run` is the long-running node process. -/
inductive GethCmd where
  | versionQuery
  | chainInit (datadirArg : String) (initFile : String)
  | run (args : List String)
deriving DecidableEq, Repr

/-- Whether a command spawns the long-running node process. -/
def GethCmd.isLongRunning : GethCmd → Bool
  | .run _ => true
  | _ => false

/-- Supervisor state.  `ps` is the handle of the spawned child process
(`self.__ps` in the source), `none` until `start()` succeeds in spawning. -/
structure NodeProcess where
  datadir : String
  prog : String
  ps : Option Nat
deriving DecidableEq, Repr

/-- Environment of `NodeProcess.__init__`: result of `find_program('geth')`
and the version the binary reports (already extracted by the source's regex
and parsed by `StrictVersion`). -/
structure InitEnv where
  progFound : Option String
  ver : StrictVersion
deriving Repr

/-- `NodeProcess.__init__(datadir)`: locate `geth`, query its version
synchronously, gate it against the closed range
`[MIN_GETH_VERSION, MAX_GETH_VERSION]` (the source raises when
`ver < MIN or ver > MAX`).  Returns the constructed state or the error,
together with the trace of `geth` invocations performed. -/
def NodeProcess.init (datadir : String) (env : InitEnv) :
    Except NodeError NodeProcess × List GethCmd :=
  match env.progFound with
  | none => (.error .gethNotFound, [])
  | some prog =>
      if StrictVersion.ltB env.ver MIN_GETH_VERSION
          || StrictVersion.ltB MAX_GETH_VERSION env.ver then
        (.error (.incompatibleVersion env.ver), [.versionQuery])
      else
        (.ok { datadir := datadir, prog := prog, ps := none }, [.versionQuery])

/-- `NodeProcess.is_running()`. -/
def NodeProcess.is_running (np : NodeProcess) : Bool :=
  np.ps.isSome

/-- `os.path.join` for the two-component joins the source performs (POSIX
separator). -/
def pathJoin (a b : String) : String := a ++ "/" ++ b

/-- The target chain hard-coded in `start()`: `chain = 'rinkeby'`. -/
def targetChain : String := "rinkeby"

/-- The static `GENESES` table of `identify_chain`: genesis block hash to
chain name, keys exactly as written in the source (lowercase,
`0x`-prefixed). -/
def GENESES : List (String × String) :=
  [("0xd4e56740f876aef8c010b86a40d5f56745a118d0906a34e69aec8c0db1cb8fa3", "mainnet"),
   ("0x41941023680923e0fe4d74a34bdac8141f2540e3ae90623718e47d66d1ca4a2d", "ropsten"),
   ("0x6341fd3daf94b748c72ced5a5b26028f2474f5f00d824504e4fa37a75767e177", "rinkeby")]

/-- `NodeProcess.identify_chain()`: fetch the genesis (block zero) hash from
the node (here the `genesis` argument) and look it up with `GENESES.get(genesis,
'unknown')` — a plain dict lookup, i.e. exact string equality on the key. -/
def identify_chain (genesis : String) : String :=
  match GENESES.lookup genesis with
  | some name => name
  | none => "unknown"

/-- Environment of `NodeProcess.start()`: the exit code of the synchronous
`geth init` subcommand, the pid the long-running spawn receives, the genesis
hash the node reports once its IPC endpoint answers, the directory holding
the bundled chain config (`path.dirname(__file__)`), and how many 100 ms
polls pass before `web3.isConnected()` becomes true (the source's unbounded
readiness loop, which terminates under the spec's assumption that the
endpoint eventually becomes reachable). -/
structure StartEnv where
  initReturncode : Int
  spawnPid : Nat
  genesisHash : String
  thisDir : String
  pollsUntilConnected : Nat
deriving Repr

/-- Result of a `start()` call: the supervisor state afterwards, the trace of
`geth` invocations, the raised error if any (`none` means normal return), and
the number of readiness polls performed. -/
structure StartResult where
  state : NodeProcess
  trace : List GethCmd
  outcome : Option NodeError
  polls : Nat
deriving DecidableEq, Repr

/-- The chain-specific data subdirectory computed in `start()`:
`path.join(self.datadir, 'ethereum', chain)`. -/
def NodeProcess.geth_datadir (np : NodeProcess) : String :=
  pathJoin (pathJoin np.datadir "ethereum") targetChain

/-- `'--datadir={}'.format(geth_datadir)`. -/
def NodeProcess.datadir_arg (np : NodeProcess) : String :=
  "--datadir=" ++ np.geth_datadir

/-- The fixed argument list of the long-running spawn in `start()`. -/
def NodeProcess.startArgs (np : NodeProcess) : List String :=
  [np.prog, np.datadir_arg, "--cache=32", "--syncmode=light", "--networkid=4",
   "--bootnodes", String.intercalate "," BOOT_NODES, "--verbosity", "3"]

/-- `NodeProcess.start()`:
1. raise `RuntimeError` if `self.__ps is not None` (already started);
2. compute the chain data subdirectory and init-file path (pure);
3. run `geth init` synchronously, raise `OSError` on non-zero exit;
4. spawn the long-running node process (sets `self.__ps`);
5. register an atexit stop hook (not observable here);
6. poll the IPC endpoint every 100 ms until connected;
7. identify the chain; raise `OSError` if it differs from `'rinkeby'`;
8. return normally. -/
def NodeProcess.start (np : NodeProcess) (env : StartEnv) : StartResult :=
  match np.ps with
  | some _ => ⟨np, [], some .alreadyStarted, 0⟩
  | none =>
      let init_file := pathJoin env.thisDir (targetChain ++ ".json")
      let initCmd := GethCmd.chainInit np.datadir_arg init_file
      if env.initReturncode ≠ 0 then
        ⟨np, [initCmd], some (.initFailed env.initReturncode), 0⟩
      else
        let np1 : NodeProcess := { np with ps := some env.spawnPid }
        let identified := identify_chain env.genesisHash
        if identified ≠ targetChain then
          ⟨np1, [initCmd, .run np.startArgs], some (.wrongChain identified),
           env.pollsUntilConnected⟩
        else
          ⟨np1, [initCmd, .run np.startArgs], none, env.pollsUntilConnected⟩

/-- Whether Python 2.7's `subprocess` module defines an attribute
`NoSuchProcess`.  It does not — that exception class belongs to `psutil` —
so evaluating the handler clause `except subprocess.NoSuchProcess:` raises
`AttributeError`.  Python only evaluates an `except` clause's class
expression when an exception has actually been raised in the `try` body, so
the slip is invisible on the normal path. -/
def subprocessModuleHasNoSuchProcess : Bool := false

/-- Environment of `NodeProcess.stop()`: whether the child process is
already gone, making `self.__ps.terminate()` raise the
"process no longer exists" `OSError`. -/
structure StopEnv where
  processGone : Bool
deriving DecidableEq, Repr

/-- `NodeProcess.stop()`: no-op when `self.__ps` is falsy; otherwise
`terminate()` and `wait()` for the child inside a `try` whose handler names
`subprocess.NoSuchProcess`, then clear `self.__ps`.  When `terminate()`
raises because the process is already gone, resolving the handler's class
raises `AttributeError` (see `subprocessModuleHasNoSuchProcess`), the
intended swallow never happens and `self.__ps` is left set. -/
def NodeProcess.stop (np : NodeProcess) (env : StopEnv) :
    NodeProcess × Option NodeError :=
  match np.ps with
  | none => (np, none)
  | some _ =>
      if env.processGone then
        if subprocessModuleHasNoSuchProcess then
          ({ np with ps := none }, none)
        else
          (np, some (.attributeError "NoSuchProcess"))
      else
        ({ np with ps := none }, none)

/-- Lowercase hex digit, as Python's `str.encode('hex')` produces. -/
def hexDigitChar (n : Nat) : Char :=
  if n < 10 then Char.ofNat (48 + n) else Char.ofNat (87 + n)

/-- Two-digit lowercase hex rendering of one byte. -/
def byteToHex (b : Nat) : String :=
  String.mk [hexDigitChar (b / 16 % 16), hexDigitChar (b % 16)]

/-- `bytes.encode('hex')`: lowercase hex string of a byte string. -/
def hexEncode (bs : List Nat) : String :=
  String.join (bs.map byteToHex)

/-- Value of a hex digit character, accepting both cases as Python's
`str.decode('hex')` does. -/
def hexDigitVal (c : Char) : Option Nat :=
  if 48 ≤ c.toNat ∧ c.toNat ≤ 57 then some (c.toNat - 48)
  else if 97 ≤ c.toNat ∧ c.toNat ≤ 102 then some (c.toNat - 87)
  else if 65 ≤ c.toNat ∧ c.toNat ≤ 70 then some (c.toNat - 55)
  else none

/-- `str.decode('hex')` on a character list: pairs of hex digits to bytes,
`none` on odd length or a non-hex character (Python raises `TypeError`). -/
def hexDecodeChars : List Char → Option (List Nat)
  | [] => some []
  | [_] => none
  | c1 :: c2 :: rest =>
      match hexDigitVal c1, hexDigitVal c2, hexDecodeChars rest with
      | some h, some l, some tail => some ((16 * h + l) :: tail)
      | _, _, _ => none

/-- `ethereum.utils.normalize_address`, modelled for the binary inputs this
module passes it: a 20-byte string is returned unchanged, anything else
raises (the library also accepts hex-encoded forms, which no caller here
uses on the success paths the claims concern). -/
def normalize_address (x : List Nat) : Option (List Nat) :=
  if x.length = 20 then some x else none

/-- The HTTP response the remote faucet returns, as
`ropsten_faucet_donate` consumes it: status code plus the JSON fields
`paydate`, `message` and (optional, only read on the success path)
`amount`. -/
structure HttpResponse where
  status_code : Nat
  paydate : Nat
  message : String
  amount : Option Int
deriving DecidableEq, Repr

/-- Log records emitted by `ropsten_faucet_donate`. -/
inductive FaucetLog where
  | errorCode (code : Nat)
  | warning (message : String)
  | funded (amount : Int) (paydate : Nat)
deriving DecidableEq, Repr

/-- Result of `ropsten_faucet_donate`: the returned value (or the raised
exception as `.error`), the list of HTTP GET requests issued, and the log
records. -/
structure DonateResult where
  result : Except String Bool
  requests : List String
  logs : List FaucetLog
deriving Repr

/-- The remote faucet endpoint `URL_TEMPLATE` of the source. -/
def URL_TEMPLATE_BASE : String := "http://188.165.227.180:4000/donate/"

/-- `ropsten_faucet_donate(addr)`: normalize the address, GET the faucet URL
templated with its hex encoding, return `False` on non-200 status, `False`
with the server message logged when `paydate == 0`, `True` (logging the
funded amount) when `paydate` is nonzero and an `amount` field is present. -/
def ropsten_faucet_donate (addr : List Nat) (resp : HttpResponse) : DonateResult :=
  match normalize_address addr with
  | none => ⟨.error "normalize_address", [], []⟩
  | some a =>
      let request := URL_TEMPLATE_BASE ++ hexEncode a
      if resp.status_code ≠ 200 then
        ⟨.ok false, [request], [.errorCode resp.status_code]⟩
      else if resp.paydate = 0 then
        ⟨.ok false, [request], [.warning resp.message]⟩
      else
        match resp.amount with
        | none => ⟨.error "KeyError: amount", [request], []⟩
        | some amt => ⟨.ok true, [request], [.funded amt resp.paydate]⟩

/-- An `ethereum.transactions.Transaction` as `gimme_money` builds it:
`Transaction(nonce, gasprice, startgas, to, value, data)`, with the signing
key recorded by `sign` (the signature computation itself is the external
library's concern).  The field `toAddr` models the library's `to` field,
whose name is a reserved token here. -/
structure Tx where
  nonce : Nat
  gasprice : Nat
  startgas : Nat
  toAddr : List Nat
  value : Nat
  data : String
  signedWith : Option String := none
deriving DecidableEq, Repr

/-- `tx.sign(key)`. -/
def Tx.sign (tx : Tx) (key : String) : Tx :=
  { tx with signedWith := some key }

/-- The node interface `gimme_money` uses: pending transaction count of an
address (hex string), and raw-transaction submission returning a hex-string
hash. -/
structure EthNode where
  get_transaction_count : String → Nat
  send : Tx → String

/-- `'{:32}'.format(s)`: left-aligned padding with spaces to width 32. -/
def formatWidth32 (s : String) : String :=
  s ++ String.mk (List.replicate (32 - s.length) ' ')

namespace Faucet

/-- `Faucet.PRIVKEY = "{:32}".format("Golem Faucet")`. -/
def PRIVKEY : String := formatWidth32 "Golem Faucet"

/-- `Faucet.gimme_money(ethnode, addr, value)`: nonce from the transaction
count of the faucet's own address (`privtoaddr(PRIVKEY)`, hex, `0x`-prefixed),
a `Transaction(nonce, 1, 21000, addr, value, '')` signed with `PRIVKEY` and
submitted through the node; the hex-string response with its `0x` stripped
is decoded to raw bytes and returned.  The `privtoaddr` key-derivation
primitive of the external `ethereum` library is passed in as a function. -/
def gimme_money (privtoaddr : String → List Nat) (ethnode : EthNode)
    (addr : List Nat) (value : Nat) : Except String (List Nat) :=
  let nonce := ethnode.get_transaction_count
    ("0x" ++ hexEncode (privtoaddr PRIVKEY))
  match normalize_address addr with
  | none => .error "normalize_address"
  | some a =>
      let tx : Tx := { nonce := nonce, gasprice := 1, startgas := 21000,
                       toAddr := a, value := value, data := "" }
      let tx := tx.sign PRIVKEY
      let h := ethnode.send tx
      match hexDecodeChars (h.drop 2).data with
      | some bytes => .ok bytes
      | none => .error "TypeError: non-hex digit"

end Faucet

/-- ASCII lowercasing of one character, as Python's `str.lower` acts on the
characters appearing in a hex digest. -/
def lowerChar (c : Char) : Char :=
  if 65 ≤ c.toNat ∧ c.toNat ≤ 90 then Char.ofNat (c.toNat + 32) else c

/-- Case/format normalization of a hex digest: strip a `0x`/`0X` marker and
lowercase the digits. -/
def normalizeHexKey (s : String) : String :=
  let cs := match s.data with
    | '0' :: 'x' :: rest => rest
    | '0' :: 'X' :: rest => rest
    | cs => cs
  String.mk (cs.map lowerChar)

/-- Follows the spec's words (§4.3), for comparison with `identify_chain`:
look the genesis hash up in the `GENESES` table using case/format-normalized
hex comparison, returning the sentinel "unknown" when no entry matches. -/
def identify_chain_normalized (genesis : String) : String :=
  match GENESES.find? (fun p => normalizeHexKey p.1 == normalizeHexKey genesis) with
  | some p => p.2
  | none => "unknown"

example :
    (NodeProcess.init "d" ⟨some "geth", ⟨1, 6, 2⟩⟩).1 =
      .ok { datadir := "d", prog := "geth", ps := none } := by rfl

example :
    (NodeProcess.init "d" ⟨some "geth", ⟨1, 7, 0⟩⟩).1 =
      .error (.incompatibleVersion ⟨1, 7, 0⟩) := by rfl

example :
    identify_chain "0x6341fd3daf94b748c72ced5a5b26028f2474f5f00d824504e4fa37a75767e177"
      = "rinkeby" := by rfl

example : identify_chain "0xdead" = "unknown" := by rfl

/-- C1: construction applies the version gate as an inclusive range — with
the binary found and reporting version `v`, construction succeeds whenever
`MIN_GETH_VERSION ≤ v ≤ MAX_GETH_VERSION`, fails with the incompatible-version
error (the spec's `ConfigurationError`) whose message names `v` whenever
`v < MIN_GETH_VERSION` or `v > MAX_GETH_VERSION`, and in either case spawns
no long-running process. -/
theorem version_gate_inclusive_range (datadir : String) (env : InitEnv)
    (prog : String) (hp : env.progFound = some prog) :
    (StrictVersion.leB MIN_GETH_VERSION env.ver = true →
       StrictVersion.leB env.ver MAX_GETH_VERSION = true →
       (NodeProcess.init datadir env).1 =
         .ok { datadir := datadir, prog := prog, ps := none }) ∧
    ((StrictVersion.ltB env.ver MIN_GETH_VERSION = true ∨
        StrictVersion.ltB MAX_GETH_VERSION env.ver = true) →
       (NodeProcess.init datadir env).1 =
         .error (.incompatibleVersion env.ver) ∧
       NodeError.message (.incompatibleVersion env.ver) =
         "Incompatible Ethereum client 'geth' version: " ++ env.ver.toStr) ∧
    (∀ c ∈ (NodeProcess.init datadir env).2, c.isLongRunning = false) := by
  refine ⟨?_, ?_, ?_⟩
  · intro h1 h2
    have hlt1 : StrictVersion.ltB env.ver MIN_GETH_VERSION = false := by
      rw [StrictVersion.leB_eq_not_ltB] at h1
      simpa using h1
    have hlt2 : StrictVersion.ltB MAX_GETH_VERSION env.ver = false := by
      rw [StrictVersion.leB_eq_not_ltB] at h2
      simpa using h2
    simp [NodeProcess.init, hp, hlt1, hlt2]
  · intro h
    have hc : (StrictVersion.ltB env.ver MIN_GETH_VERSION
        || StrictVersion.ltB MAX_GETH_VERSION env.ver) = true := by
      rcases h with h | h <;> simp [h]
    refine ⟨?_, rfl⟩
    simp [NodeProcess.init, hp, hc]
  · intro c hc
    simp only [NodeProcess.init, hp] at hc
    rcases hb : (StrictVersion.ltB env.ver MIN_GETH_VERSION
        || StrictVersion.ltB MAX_GETH_VERSION env.ver) with _ | _ <;>
      simp [hb] at hc <;> simp [hc, GethCmd.isLongRunning]

/-- Witness for `version_gate_inclusive_range` at version 1.6.2. -/
theorem version_gate_inclusive_range_witness :
    (InitEnv.mk (some "geth") ⟨1, 6, 2⟩).progFound = some "geth" ∧
    StrictVersion.leB MIN_GETH_VERSION ⟨1, 6, 2⟩ = true ∧
    StrictVersion.leB ⟨1, 6, 2⟩ MAX_GETH_VERSION = true ∧
    (NodeProcess.init "d" ⟨some "geth", ⟨1, 6, 2⟩⟩).1 =
      .ok { datadir := "d", prog := "geth", ps := none } :=
  ⟨rfl, by decide, by decide,
   (version_gate_inclusive_range "d" ⟨some "geth", ⟨1, 6, 2⟩⟩ "geth" rfl).1
     (by decide) (by decide)⟩

/-- C2: calling `start()` while already running fails with the
already-started error (the spec's `LifecycleError`), leaves the state
untouched with `is_running` still true, and issues no command at all (in
particular no second spawn). -/
theorem start_double_start (np : NodeProcess) (env : StartEnv)
    (h : np.is_running = true) :
    (np.start env).outcome = some .alreadyStarted ∧
    (np.start env).state = np ∧
    (np.start env).state.is_running = true ∧
    (np.start env).trace = [] := by
  obtain ⟨pid, hps⟩ := Option.isSome_iff_exists.mp h
  simp [NodeProcess.start, hps, NodeProcess.is_running]

/-- Witness for `start_double_start`. -/
theorem start_double_start_witness :
    (NodeProcess.mk "d" "geth" (some 1)).is_running = true ∧
    ((NodeProcess.mk "d" "geth" (some 1)).start ⟨0, 2, "0xdead", "t", 0⟩).outcome
        = some .alreadyStarted ∧
    ((NodeProcess.mk "d" "geth" (some 1)).start ⟨0, 2, "0xdead", "t", 0⟩).state
        = NodeProcess.mk "d" "geth" (some 1) ∧
    ((NodeProcess.mk "d" "geth" (some 1)).start ⟨0, 2, "0xdead", "t", 0⟩).state.is_running
        = true ∧
    ((NodeProcess.mk "d" "geth" (some 1)).start ⟨0, 2, "0xdead", "t", 0⟩).trace = [] :=
  ⟨rfl, start_double_start (NodeProcess.mk "d" "geth" (some 1))
    ⟨0, 2, "0xdead", "t", 0⟩ rfl⟩

/-- C3: when the identified chain differs from the target chain, `start()`
fails with the wrong-chain error (the spec's `ConfigurationError`) naming
the identified chain, and the long-running process it has already spawned
is left running — the handle stays set and the spawn command remains in the
trace with no rollback. -/
theorem start_wrong_chain_no_rollback (np : NodeProcess) (env : StartEnv)
    (h0 : np.ps = none) (h1 : env.initReturncode = 0)
    (h2 : identify_chain env.genesisHash ≠ targetChain) :
    (np.start env).outcome = some (.wrongChain (identify_chain env.genesisHash)) ∧
    (np.start env).state.ps = some env.spawnPid ∧
    (np.start env).state.is_running = true ∧
    GethCmd.run np.startArgs ∈ (np.start env).trace := by
  simp [NodeProcess.start, h0, h1, h2, NodeProcess.is_running]

/-- Witness for `start_wrong_chain_no_rollback` with an unknown genesis
hash. -/
theorem start_wrong_chain_no_rollback_witness :
    (NodeProcess.mk "d" "geth" none).ps = none ∧
    (StartEnv.mk 0 7 "0xdead" "t" 3).initReturncode = 0 ∧
    identify_chain "0xdead" ≠ targetChain ∧
    (((NodeProcess.mk "d" "geth" none).start ⟨0, 7, "0xdead", "t", 3⟩).outcome
        = some (.wrongChain (identify_chain "0xdead")) ∧
     ((NodeProcess.mk "d" "geth" none).start ⟨0, 7, "0xdead", "t", 3⟩).state.ps
        = some 7 ∧
     ((NodeProcess.mk "d" "geth" none).start ⟨0, 7, "0xdead", "t", 3⟩).state.is_running
        = true ∧
     GethCmd.run (NodeProcess.mk "d" "geth" none).startArgs ∈
       ((NodeProcess.mk "d" "geth" none).start ⟨0, 7, "0xdead", "t", 3⟩).trace) :=
  ⟨rfl, rfl, by decide,
   start_wrong_chain_no_rollback (NodeProcess.mk "d" "geth" none)
     ⟨0, 7, "0xdead", "t", 3⟩ rfl rfl (by decide)⟩

/-- C10: a `start()` that spawned the child and then failed at the
chain-identity check reports an error, yet leaves `is_running() = true` —
the supervisor reports RUNNING after the failed call. -/
theorem failed_start_reports_running (np : NodeProcess) (env : StartEnv)
    (h0 : np.ps = none) (h1 : env.initReturncode = 0)
    (h2 : identify_chain env.genesisHash ≠ targetChain) :
    ((np.start env).outcome).isSome = true ∧
    (np.start env).state.is_running = true := by
  simp [NodeProcess.start, h0, h1, h2, NodeProcess.is_running]

/-- Witness for `failed_start_reports_running` with a mainnet genesis hash
(identified as "mainnet", not the rinkeby target). -/
theorem failed_start_reports_running_witness :
    (NodeProcess.mk "dir" "geth" none).ps = none ∧
    (StartEnv.mk 0 9
      "0xd4e56740f876aef8c010b86a40d5f56745a118d0906a34e69aec8c0db1cb8fa3"
      "u" 1).initReturncode = 0 ∧
    identify_chain
      "0xd4e56740f876aef8c010b86a40d5f56745a118d0906a34e69aec8c0db1cb8fa3"
      ≠ targetChain ∧
    ((((NodeProcess.mk "dir" "geth" none).start
        ⟨0, 9, "0xd4e56740f876aef8c010b86a40d5f56745a118d0906a34e69aec8c0db1cb8fa3",
         "u", 1⟩).outcome).isSome = true ∧
     (((NodeProcess.mk "dir" "geth" none).start
        ⟨0, 9, "0xd4e56740f876aef8c010b86a40d5f56745a118d0906a34e69aec8c0db1cb8fa3",
         "u", 1⟩).state.is_running = true)) :=
  ⟨rfl, rfl, by decide,
   failed_start_reports_running (NodeProcess.mk "dir" "geth" none)
     ⟨0, 9, "0xd4e56740f876aef8c010b86a40d5f56745a118d0906a34e69aec8c0db1cb8fa3",
      "u", 1⟩ rfl rfl (by decide)⟩

/-- C6: a `start()` failure before the long-running spawn — the
already-running check (step 1) or a non-zero exit of the `geth init`
subcommand (step 3; the datadir computation of step 2 is pure and total) —
leaves the supervisor state exactly as it was, with `is_running` unchanged,
and the trace holds no long-running spawn. -/
theorem start_early_failure_unchanged (np : NodeProcess) (env : StartEnv)
    (h : np.ps.isSome = true ∨ env.initReturncode ≠ 0) :
    (np.start env).state = np ∧
    (np.start env).state.is_running = np.is_running ∧
    ((np.start env).outcome = some .alreadyStarted ∨
      (np.start env).outcome = some (.initFailed env.initReturncode)) ∧
    (∀ c ∈ (np.start env).trace, c.isLongRunning = false) := by
  rcases hps : np.ps with _ | pid
  · rcases h with h | h
    · rw [hps] at h
      simp at h
    · simp [NodeProcess.start, hps, h, GethCmd.isLongRunning]
  · simp [NodeProcess.start, hps, GethCmd.isLongRunning]

/-- Witness for `start_early_failure_unchanged` with a failing `geth init`
(exit code 1). -/
theorem start_early_failure_unchanged_witness :
    ((NodeProcess.mk "w" "geth" none).ps.isSome = true ∨
      (StartEnv.mk 1 5 "0xdead" "t" 0).initReturncode ≠ 0) ∧
    (((NodeProcess.mk "w" "geth" none).start ⟨1, 5, "0xdead", "t", 0⟩).state
        = NodeProcess.mk "w" "geth" none ∧
     ((NodeProcess.mk "w" "geth" none).start ⟨1, 5, "0xdead", "t", 0⟩).state.is_running
        = (NodeProcess.mk "w" "geth" none).is_running ∧
     (((NodeProcess.mk "w" "geth" none).start ⟨1, 5, "0xdead", "t", 0⟩).outcome
        = some .alreadyStarted ∨
      ((NodeProcess.mk "w" "geth" none).start ⟨1, 5, "0xdead", "t", 0⟩).outcome
        = some (.initFailed 1)) ∧
     (∀ c ∈ ((NodeProcess.mk "w" "geth" none).start ⟨1, 5, "0xdead", "t", 0⟩).trace,
        c.isLongRunning = false)) :=
  ⟨Or.inr (by decide),
   start_early_failure_unchanged (NodeProcess.mk "w" "geth" none)
     ⟨1, 5, "0xdead", "t", 0⟩ (Or.inr (by decide))⟩

/-- C5: the lifecycle is reusable — `stop()` on a non-running supervisor is
a no-op whatever the child-process situation; a successful `start()`
followed by `stop()` leaves `is_running() = false`; and a subsequent
`start()` under the same environment succeeds again. -/
theorem lifecycle_reusable (np : NodeProcess) (env : StartEnv)
    (h0 : np.ps = none) (h1 : env.initReturncode = 0)
    (h2 : identify_chain env.genesisHash = targetChain) :
    (∀ se : StopEnv, np.stop se = (np, none)) ∧
    (np.start env).outcome = none ∧
    (np.start env).state.is_running = true ∧
    ((np.start env).state.stop ⟨false⟩).1.is_running = false ∧
    ((np.start env).state.stop ⟨false⟩).2 = none ∧
    (((np.start env).state.stop ⟨false⟩).1.start env).outcome = none := by
  rcases np with ⟨dd, pg, ps⟩
  simp only at h0
  subst h0
  refine ⟨fun se => by simp [NodeProcess.stop], ?_⟩
  simp [NodeProcess.start, NodeProcess.stop, NodeProcess.is_running, h1, h2]

/-- Witness for `lifecycle_reusable` with the rinkeby genesis hash. -/
theorem lifecycle_reusable_witness :
    (NodeProcess.mk "w" "geth" none).ps = none ∧
    (StartEnv.mk 0 11
      "0x6341fd3daf94b748c72ced5a5b26028f2474f5f00d824504e4fa37a75767e177"
      "t" 2).initReturncode = 0 ∧
    identify_chain
      "0x6341fd3daf94b748c72ced5a5b26028f2474f5f00d824504e4fa37a75767e177"
      = targetChain ∧
    ((∀ se : StopEnv, (NodeProcess.mk "w" "geth" none).stop se
        = (NodeProcess.mk "w" "geth" none, none)) ∧
     ((NodeProcess.mk "w" "geth" none).start
        ⟨0, 11, "0x6341fd3daf94b748c72ced5a5b26028f2474f5f00d824504e4fa37a75767e177",
         "t", 2⟩).outcome = none ∧
     ((NodeProcess.mk "w" "geth" none).start
        ⟨0, 11, "0x6341fd3daf94b748c72ced5a5b26028f2474f5f00d824504e4fa37a75767e177",
         "t", 2⟩).state.is_running = true ∧
     (((NodeProcess.mk "w" "geth" none).start
        ⟨0, 11, "0x6341fd3daf94b748c72ced5a5b26028f2474f5f00d824504e4fa37a75767e177",
         "t", 2⟩).state.stop ⟨false⟩).1.is_running = false ∧
     (((NodeProcess.mk "w" "geth" none).start
        ⟨0, 11, "0x6341fd3daf94b748c72ced5a5b26028f2474f5f00d824504e4fa37a75767e177",
         "t", 2⟩).state.stop ⟨false⟩).2 = none ∧
     ((((NodeProcess.mk "w" "geth" none).start
        ⟨0, 11, "0x6341fd3daf94b748c72ced5a5b26028f2474f5f00d824504e4fa37a75767e177",
         "t", 2⟩).state.stop ⟨false⟩).1.start
        ⟨0, 11, "0x6341fd3daf94b748c72ced5a5b26028f2474f5f00d824504e4fa37a75767e177",
         "t", 2⟩).outcome = none) :=
  ⟨rfl, rfl, by decide,
   lifecycle_reusable (NodeProcess.mk "w" "geth" none)
     ⟨0, 11, "0x6341fd3daf94b748c72ced5a5b26028f2474f5f00d824504e4fa37a75767e177",
      "t", 2⟩ rfl rfl (by decide)⟩

/-- C4 (divergence): `stop()` on a running supervisor whose child is already
gone does NOT swallow the "process already gone" exception — the handler
clause `except subprocess.NoSuchProcess` names an attribute the
`subprocess` module does not define, so an `AttributeError` escapes and the
handle is NOT cleared (`is_running` stays true), contradicting the claimed
transition to STOPPED.  On the normal path (child still alive) `stop()`
does terminate, clear the handle and transition to STOPPED. -/
theorem stop_handler_attribute_error :
    NodeProcess.stop ⟨"dd", "geth", some 42⟩ ⟨true⟩ =
      (⟨"dd", "geth", some 42⟩, some (.attributeError "NoSuchProcess")) ∧
    (NodeProcess.stop ⟨"dd", "geth", some 42⟩ ⟨true⟩).1.is_running = true ∧
    NodeProcess.stop ⟨"dd", "geth", some 42⟩ ⟨false⟩ =
      (⟨"dd", "geth", none⟩, none) := by
  refine ⟨rfl, rfl, rfl⟩

/-- C7 (counterexample): chain identification does not use case/format
normalized comparison — the uppercase spelling of the mainnet genesis hash
normalizes to the same digest as the table's mainnet entry, yet
`identify_chain` returns "unknown", where the spec-worded normalized lookup
`identify_chain_normalized` returns "mainnet". -/
theorem identify_chain_not_normalized :
    normalizeHexKey
        "0xD4E56740F876AEF8C010B86A40D5F56745A118D0906A34E69AEC8C0DB1CB8FA3"
      = normalizeHexKey
        "0xd4e56740f876aef8c010b86a40d5f56745a118d0906a34e69aec8c0db1cb8fa3" ∧
    ("0xd4e56740f876aef8c010b86a40d5f56745a118d0906a34e69aec8c0db1cb8fa3",
      "mainnet") ∈ GENESES ∧
    identify_chain
        "0xD4E56740F876AEF8C010B86A40D5F56745A118D0906A34E69AEC8C0DB1CB8FA3"
      = "unknown" ∧
    identify_chain_normalized
        "0xD4E56740F876AEF8C010B86A40D5F56745A118D0906A34E69AEC8C0DB1CB8FA3"
      = "mainnet" := by
  refine ⟨by decide, by decide, rfl, rfl⟩

/-- C7 (amended): chain identification looks the genesis hash up by exact
string equality against the table's keys (lowercase, `0x`-prefixed): a hash
exactly equal to a table key returns that entry's chain name, and any other
string returns the sentinel "unknown" rather than raising an error. -/
theorem identify_chain_exact_lookup :
    (∀ g name, (g, name) ∈ GENESES → identify_chain g = name) ∧
    (∀ g, (∀ p ∈ GENESES, p.1 ≠ g) → identify_chain g = "unknown") := by
  constructor
  · intro g name h
    simp only [GENESES, List.mem_cons, List.not_mem_nil, or_false,
      Prod.mk.injEq] at h
    rcases h with ⟨rfl, rfl⟩ | ⟨rfl, rfl⟩ | ⟨rfl, rfl⟩ <;> rfl
  · intro g hg
    have h1 := hg ("0xd4e56740f876aef8c010b86a40d5f56745a118d0906a34e69aec8c0db1cb8fa3",
      "mainnet") (by simp [GENESES])
    have h2 := hg ("0x41941023680923e0fe4d74a34bdac8141f2540e3ae90623718e47d66d1ca4a2d",
      "ropsten") (by simp [GENESES])
    have h3 := hg ("0x6341fd3daf94b748c72ced5a5b26028f2474f5f00d824504e4fa37a75767e177",
      "rinkeby") (by simp [GENESES])
    simp only at h1 h2 h3
    have e1 : (g == "0xd4e56740f876aef8c010b86a40d5f56745a118d0906a34e69aec8c0db1cb8fa3")
        = false := beq_eq_false_iff_ne.mpr (Ne.symm h1)
    have e2 : (g == "0x41941023680923e0fe4d74a34bdac8141f2540e3ae90623718e47d66d1ca4a2d")
        = false := beq_eq_false_iff_ne.mpr (Ne.symm h2)
    have e3 : (g == "0x6341fd3daf94b748c72ced5a5b26028f2474f5f00d824504e4fa37a75767e177")
        = false := beq_eq_false_iff_ne.mpr (Ne.symm h3)
    simp [identify_chain, GENESES, List.lookup, e1, e2, e3]

/-- Witness for `identify_chain_exact_lookup`: the ropsten entry is matched
exactly, and a stray hash yields the sentinel. -/
theorem identify_chain_exact_lookup_witness :
    (("0x41941023680923e0fe4d74a34bdac8141f2540e3ae90623718e47d66d1ca4a2d",
       "ropsten") ∈ GENESES ∧
     identify_chain "0x41941023680923e0fe4d74a34bdac8141f2540e3ae90623718e47d66d1ca4a2d"
       = "ropsten") ∧
    ((∀ p ∈ GENESES, p.1 ≠ "0xdead") ∧
     identify_chain "0xdead" = "unknown") :=
  ⟨⟨by decide, identify_chain_exact_lookup.1 _ _ (by decide)⟩,
   ⟨by decide, identify_chain_exact_lookup.2 "0xdead" (by decide)⟩⟩

/-- C8: for a valid (20-byte) address, the remote faucet call issues exactly
one HTTP GET whose URL is the fixed endpoint followed by the hex-encoded
normalized address; it returns `false` for every non-200 response, `false`
for every 200 response with `paydate == 0` while logging the server's
message, and `true` for every 200 response with a nonzero `paydate` and an
`amount` field — never an exception on a decline. -/
theorem ropsten_faucet_donate_contract (addr : List Nat) (resp : HttpResponse)
    (h : addr.length = 20) :
    (ropsten_faucet_donate addr resp).requests =
      [URL_TEMPLATE_BASE ++ hexEncode addr] ∧
    (ropsten_faucet_donate addr resp).requests.length = 1 ∧
    (resp.status_code ≠ 200 →
      (ropsten_faucet_donate addr resp).result = .ok false) ∧
    (resp.status_code = 200 → resp.paydate = 0 →
      (ropsten_faucet_donate addr resp).result = .ok false ∧
      FaucetLog.warning resp.message ∈ (ropsten_faucet_donate addr resp).logs) ∧
    (resp.status_code = 200 → resp.paydate ≠ 0 → ∀ amt, resp.amount = some amt →
      (ropsten_faucet_donate addr resp).result = .ok true) := by
  have hn : normalize_address addr = some addr := by
    simp [normalize_address, h]
  refine ⟨?_, ?_, ?_, ?_, ?_⟩
  · simp only [ropsten_faucet_donate, hn]
    by_cases hs : resp.status_code = 200
    · by_cases hp : resp.paydate = 0
      · simp [hs, hp]
      · rcases ha : resp.amount with _ | amt <;> simp [hs, hp, ha]
    · simp [hs]
  · simp only [ropsten_faucet_donate, hn]
    by_cases hs : resp.status_code = 200
    · by_cases hp : resp.paydate = 0
      · simp [hs, hp]
      · rcases ha : resp.amount with _ | amt <;> simp [hs, hp, ha]
    · simp [hs]
  · intro hs
    simp [ropsten_faucet_donate, hn, hs]
  · intro hs hp
    simp [ropsten_faucet_donate, hn, hs, hp]
  · intro hs hp amt ha
    simp [ropsten_faucet_donate, hn, hs, hp, ha]

/-- Witness for `ropsten_faucet_donate_contract` on a 20-byte address and a
declined (paydate = 0) 200 response. -/
theorem ropsten_faucet_donate_contract_witness :
    (List.replicate 20 171).length = 20 ∧
    ((ropsten_faucet_donate (List.replicate 20 171) ⟨200, 0, "Ooops!", none⟩).requests =
      [URL_TEMPLATE_BASE ++ hexEncode (List.replicate 20 171)] ∧
     (ropsten_faucet_donate (List.replicate 20 171) ⟨200, 0, "Ooops!", none⟩).requests.length
       = 1 ∧
     ((200 : Nat) ≠ 200 →
       (ropsten_faucet_donate (List.replicate 20 171) ⟨200, 0, "Ooops!", none⟩).result
         = .ok false) ∧
     ((200 : Nat) = 200 → (0 : Nat) = 0 →
       (ropsten_faucet_donate (List.replicate 20 171) ⟨200, 0, "Ooops!", none⟩).result
         = .ok false ∧
       FaucetLog.warning "Ooops!" ∈
         (ropsten_faucet_donate (List.replicate 20 171) ⟨200, 0, "Ooops!", none⟩).logs) ∧
     ((200 : Nat) = 200 → (0 : Nat) ≠ 0 → ∀ amt : Int,
       (none : Option Int) = some amt →
       (ropsten_faucet_donate (List.replicate 20 171) ⟨200, 0, "Ooops!", none⟩).result
         = .ok true)) :=
  ⟨by decide,
   ropsten_faucet_donate_contract (List.replicate 20 171) ⟨200, 0, "Ooops!", none⟩
     (by decide)⟩

/-- C9: for a valid (20-byte) target address, `gimme_money` builds a
transaction whose nonce is the node's transaction count for the faucet's own
address (`privtoaddr(PRIVKEY)`, `0x`-prefixed hex), gas price exactly 1, gas
limit exactly 21000, empty payload, the given value to the normalized target
address, signs it with the faucet's private key, submits exactly that
transaction through the node and returns the node's hex-string response with
the `0x` marker stripped, decoded to raw bytes. -/
theorem gimme_money_contract (pta : String → List Nat) (node : EthNode)
    (addr : List Nat) (value : Nat) (h : addr.length = 20) :
    Faucet.gimme_money pta node addr value =
      (match hexDecodeChars ((node.send
          { nonce := node.get_transaction_count
              ("0x" ++ hexEncode (pta Faucet.PRIVKEY)),
            gasprice := 1, startgas := 21000, toAddr := addr, value := value,
            data := "", signedWith := some Faucet.PRIVKEY }).drop 2).data with
       | some bytes => .ok bytes
       | none => .error "TypeError: non-hex digit") := by
  have hn : normalize_address addr = some addr := by
    simp [normalize_address, h]
  simp only [Faucet.gimme_money, hn, Tx.sign]

/-- Witness for `gimme_money_contract` with a constant-function node whose
response decodes to the bytes `[0, 255]`. -/
theorem gimme_money_contract_witness :
    (List.replicate 20 0).length = 20 ∧
    Faucet.gimme_money (fun _ => List.replicate 20 7)
        ⟨fun _ => 5, fun _ => "0x00ff"⟩ (List.replicate 20 0) 3 =
      (match hexDecodeChars ((EthNode.send ⟨fun _ => 5, fun _ => "0x00ff"⟩
          { nonce := EthNode.get_transaction_count ⟨fun _ => 5, fun _ => "0x00ff"⟩
              ("0x" ++ hexEncode ((fun _ => List.replicate 20 7) Faucet.PRIVKEY)),
            gasprice := 1, startgas := 21000, toAddr := List.replicate 20 0,
            value := 3, data := "", signedWith := some Faucet.PRIVKEY }).drop 2).data with
       | some bytes => .ok bytes
       | none => .error "TypeError: non-hex digit") :=
  ⟨by decide,
   gimme_money_contract (fun _ => List.replicate 20 7)
     ⟨fun _ => 5, fun _ => "0x00ff"⟩ (List.replicate 20 0) 3 (by decide)⟩
